import Mathlib

/-!
Verification of the ChitChat frontend's synchronization and resilience layer.

The development shallowly embeds the relevant parts of the source:
- the chat state synchronizer (`src/contexts/ChatContext.tsx`): optimistic
  `sendMessage` with rollback, the STOMP client setup with its captured
  room list, and the subscription destinations;
- the transport client (`ApiService` in `src/services/apiService.ts`):
  `handleResponse`, `makeRequest` with its retry loop, `shouldRetry`,
  `getToken`/`getHeaders`, and the storage writes of `login`;
- the error classifier (`ErrorHandler` in `src/services/errorHandler.ts`):
  the status-code dispatch `handleApiError` and the retry-callback registry
  semantics of the notification actions;
- the auth provider's startup `checkAuthStatus` (`AuthContext`) together
  with the fixed storage keys of `src/services/config.ts`.

JavaScript `Date.now()` is a `Nat` parameter, `localStorage` is an
association list, asynchronous request outcomes are supplied by an oracle
`Nat → AttemptOutcome` indexed by attempt number, and closures stored in
notifications are deeply embedded as data with an evaluation function.
-/

namespace ChitChat

/-! ## Data model (src/types.ts) -/

/-- `User.status` in `src/types.ts` (online / offline / away). -/
inductive UserStatus where
  | online
  | offline
  | away
deriving DecidableEq, Repr

/-- The `User` interface of `src/types.ts`, restricted to the fields the
verified operations read (`id` is the only field `sendMessage` and the
websocket code consult; `email`/`status` kept for the record shape). -/
structure User where
  id : String
  email : String
  status : UserStatus
deriving DecidableEq, Repr

/-- `Message.type` in `src/types.ts`: text / image / link / file. -/
inductive MessageType where
  | text
  | image
  | link
  | file
deriving DecidableEq, Repr

/-- The `Message` interface of `src/types.ts`. `timestamp : Date` is
modelled as a `Nat` (milliseconds since epoch, the value of `Date.now()`).
The source field `type` is called `mtype` because `type` is reserved. -/
structure Message where
  id : String
  senderId : String
  roomId : String
  text : String
  timestamp : Nat
  mtype : MessageType
  isEdited : Bool
  sender : Option User
deriving DecidableEq, Repr

/-- The `Chat` interface of `src/types.ts`, restricted to the fields the
verified operations touch: `id` and the ordered `messages` sequence
(`name` kept for the record shape). -/
structure Chat where
  id : String
  name : String
  messages : List Message
deriving DecidableEq, Repr

/-- The state owned by `ChatProvider` in `src/contexts/ChatContext.tsx`:
the canonical room list `chats` and the active-room mirror `activeChat`. -/
structure ChatState where
  chats : List Chat
  activeChat : Option Chat
deriving DecidableEq, Repr

/-! ## State synchronizer: sendMessage (src/contexts/ChatContext.tsx, lines 129-167) -/

/-- The provisional (`optimisticMessage`) object built by `sendMessage`:
`id = "temp-" ++ Date.now()`, sender data from `currentUser`. -/
def mkOptimisticMessage (u : User) (roomId content : String) (mt : MessageType)
    (now : Nat) : Message :=
  { id := "temp-" ++ toString now
    senderId := u.id
    roomId := roomId
    text := content
    timestamp := now
    mtype := mt
    isEdited := false
    sender := some u }

/-- The optimistic phase of `sendMessage`: `setChats` appends the
provisional message to every chat whose id matches `roomId`, and
`setActiveChat` mirrors the append when `activeChat?.id === roomId`. -/
def applyOptimistic (st : ChatState) (roomId : String) (msg : Message) : ChatState :=
  { chats := st.chats.map fun c =>
      if c.id == roomId then { c with messages := c.messages ++ [msg] } else c
    activeChat :=
      match st.activeChat with
      | some a =>
          if a.id == roomId then some { a with messages := a.messages ++ [msg] }
          else some a
      | none => none }

/-- The `catch` block of `sendMessage`: `setChats` filters the provisional
id out of the matching room. The source updates only `chats` here; the
`activeChat` mirror is left untouched. -/
def rollbackFailedSend (st : ChatState) (roomId : String) (tempId : String) : ChatState :=
  { chats := st.chats.map fun c =>
      if c.id == roomId then
        { c with messages := c.messages.filter fun m => m.id != tempId }
      else c
    activeChat := st.activeChat }

/-- `sendMessage(roomId, content, messageType)` run to completion.
`currentUser` is the auth context's user (the guard `if (!currentUser)
return;` is the `none` branch), `now` is `Date.now()`, and `persistOk`
tells whether `apiService.sendMessage` resolved or rejected. The returned
`Bool` records whether the persist request was issued at all. -/
def sendMessage (st : ChatState) (currentUser : Option User)
    (roomId content : String) (mt : MessageType) (now : Nat)
    (persistOk : Bool) : ChatState × Bool :=
  match currentUser with
  | none => (st, false)
  | some u =>
      let msg := mkOptimisticMessage u roomId content mt now
      let st1 := applyOptimistic st roomId msg
      if persistOk then (st1, true) else (rollbackFailedSend st1 roomId msg.id, true)

/-- `chats.find(c => c.id === roomId)`: the canonical record of a room. -/
def findRoom (l : List Chat) (roomId : String) : Option Chat :=
  l.find? fun c => c.id == roomId

/-! ## Concrete fixtures used by evaluations and witnesses -/

/-- A concrete authenticated user. -/
def sampleUser : User := { id := "u1", email := "a@example.com", status := .online }

/-- A concrete room with an empty message sequence. -/
def sampleRoom : Chat := { id := "r1", name := "Room One", messages := [] }

/-- A concrete chat state in which `sampleRoom` is loaded and active. -/
def sampleState : ChatState := { chats := [sampleRoom], activeChat := some sampleRoom }

/-! ## C1, C4, C10 -/

private lemma findRoom_applyOptimistic (l : List Chat) (roomId : String)
    (msg : Message) (c : Chat) (h : findRoom l roomId = some c) :
    findRoom (l.map fun ch =>
        if ch.id == roomId then { ch with messages := ch.messages ++ [msg] } else ch)
      roomId = some { c with messages := c.messages ++ [msg] } := by
  induction l with
  | nil => simp [findRoom] at h
  | cons hd tl ih =>
      cases hhd : hd.id == roomId with
      | true =>
          have hc : hd = c := by
            have := h
            simp [findRoom, List.find?, hhd] at this
            exact this
          subst hc
          simp [findRoom, List.find?, hhd]
      | false =>
          have htl : findRoom tl roomId = some c := by
            have := h
            simpa [findRoom, List.find?, hhd] using this
          have := ih htl
          simpa [findRoom, List.find?, hhd] using this

/-- C10: a `sendMessage` call with no authenticated user returns at the
`if (!currentUser) return;` guard: the state (canonical rooms and active
mirror alike) is unchanged and no persist request is issued. -/
theorem sendMessage_unauthenticated_noop (st : ChatState) (roomId content : String)
    (mt : MessageType) (now : Nat) (persistOk : Bool) :
    sendMessage st none roomId content mt now persistOk = (st, false) := rfl

/-- C4: with an authenticated user, `sendMessage` builds the provisional
message of `mkOptimisticMessage`, whose locally generated id carries the
reserved prefix `"temp-"`; before the persist request resolves the room's
canonical sequence is extended by exactly that message, the active mirror
is extended likewise when the room is active, and any id not of the
reserved `"temp-" ++ rest` shape is distinct from the provisional id. -/
theorem sendMessage_provisional_append (st : ChatState) (u : User)
    (roomId content : String) (mt : MessageType) (now : Nat) (c : Chat)
    (h : findRoom st.chats roomId = some c) :
    ∃ msg : Message,
      sendMessage st (some u) roomId content mt now true
          = (applyOptimistic st roomId msg, true)
        ∧ msg = mkOptimisticMessage u roomId content mt now
        ∧ (∃ rest, msg.id = "temp-" ++ rest)
        ∧ findRoom (applyOptimistic st roomId msg).chats roomId
            = some { c with messages := c.messages ++ [msg] }
        ∧ (∀ a, st.activeChat = some a → (a.id == roomId) = true →
            (applyOptimistic st roomId msg).activeChat
              = some { a with messages := a.messages ++ [msg] })
        ∧ (∀ serverId : String, (∀ rest, serverId ≠ "temp-" ++ rest) →
            serverId ≠ msg.id) := by
  refine ⟨mkOptimisticMessage u roomId content mt now, rfl, rfl,
    ⟨toString now, rfl⟩, ?_, ?_, ?_⟩
  · exact findRoom_applyOptimistic st.chats roomId _ c h
  · intro a ha hid
    simp [applyOptimistic, ha, hid]
  · intro serverId hshape heq
    exact hshape (toString now) heq

/-- Witness for C4 at a concrete input: the sample state has room `r1`,
and the theorem instantiates there. -/
theorem sendMessage_provisional_append_witness :
    findRoom sampleState.chats "r1" = some sampleRoom
      ∧ ∃ msg : Message,
          sendMessage sampleState (some sampleUser) "r1" "hi" .text 42 true
              = (applyOptimistic sampleState "r1" msg, true)
            ∧ msg = mkOptimisticMessage sampleUser "r1" "hi" .text 42
            ∧ (∃ rest, msg.id = "temp-" ++ rest)
            ∧ findRoom (applyOptimistic sampleState "r1" msg).chats "r1"
                = some { sampleRoom with messages := sampleRoom.messages ++ [msg] }
            ∧ (∀ a, sampleState.activeChat = some a → (a.id == "r1") = true →
                (applyOptimistic sampleState "r1" msg).activeChat
                  = some { a with messages := a.messages ++ [msg] })
            ∧ (∀ serverId : String, (∀ rest, serverId ≠ "temp-" ++ rest) →
                serverId ≠ msg.id) :=
  ⟨rfl, sendMessage_provisional_append sampleState sampleUser "r1" "hi" .text 42 sampleRoom rfl⟩

/-- C1 (failing evaluation): a `sendMessage` on the active room whose
persist request fails. The canonical `chats` list is rolled back to its
pre-call value, but the `catch` block never updates `activeChat`, so the
active mirror still contains the provisional `temp-42` message: the two
are no longer identical to their pre-call state, contradicting the
full-rollback claim. -/
theorem sendMessage_failure_leaves_provisional_in_mirror :
    ((sendMessage sampleState (some sampleUser) "r1" "hi" .text 42 false).1).chats
        = sampleState.chats
      ∧ ((sendMessage sampleState (some sampleUser) "r1" "hi" .text 42 false).1).activeChat
        ≠ sampleState.activeChat
      ∧ (((sendMessage sampleState (some sampleUser) "r1" "hi" .text 42 false).1).activeChat.map
          fun a => a.messages.map fun m => m.id) = some ["temp-42"] := by
  refine ⟨?_, ?_, ?_⟩
  · decide
  · decide
  · decide

/-! ## Transport client (ApiService in src/services/apiService.ts) -/

/-- `API_CONFIG.RETRY_ATTEMPTS` (src/services/config.ts line 47). -/
def RETRY_ATTEMPTS : Nat := 3

/-- `API_CONFIG.RETRY_DELAY` in milliseconds (src/services/config.ts line 48). -/
def RETRY_DELAY : Nat := 1000

/-- JavaScript `a || d` for an optional string `a`: `undefined` and the
empty string are falsy. -/
def jsOr (a : Option String) (d : String) : String :=
  match a with
  | some s => if s = "" then d else s
  | none => d

/-- The structured fault body `{message, validationErrors?, userMessage?}`
parsed from a non-2xx response, restricted to the fields the transport
client and error classifier read. -/
structure ErrorResponse where
  message : Option String
  userMessage : Option String
  validationErrors : Option (List (String × String))
deriving DecidableEq, Repr

/-- A resolved `fetch` `Response`: status, the `Content-Length` header
(`response.headers.get('Content-Length')`), the raw body, the result of
attempting `response.json()` on an error body (`none` when parsing
fails), and `statusText`. -/
structure Response where
  status : Nat
  contentLength : Option String
  bodyRaw : String
  errorJson : Option ErrorResponse
  statusText : String
deriving DecidableEq, Repr

/-- `response.ok`: status in [200, 300). -/
def responseOk (r : Response) : Bool :=
  decide (200 ≤ r.status) && decide (r.status < 300)

/-- What `handleResponse` does with a resolved response: throw an
`ApiError` (carrying message, status and the parsed error data), return
`null`, or call `response.json()` on the body (`decodeBody` marks that a
decode was attempted). -/
inductive HandleOutcome where
  | apiFault (message : String) (status : Nat) (errorData : ErrorResponse)
  | nullValue
  | decodeBody (raw : String)
deriving DecidableEq, Repr

/-- `ApiService.handleResponse` (src lines 504-522): non-ok responses
throw `ApiError` with the parsed body (falling back to
`{message: statusText}`); a 204 status or a `'0'` `Content-Length` header
yields `null`; otherwise the body is decoded. -/
def handleResponse (r : Response) : HandleOutcome :=
  if !responseOk r then
    let errorData :=
      match r.errorJson with
      | some e => e
      | none => { message := some r.statusText, userMessage := none, validationErrors := none }
    .apiFault (jsOr errorData.message "API request failed") r.status errorData
  else if r.status == 204 || r.contentLength == some "0" then
    .nullValue
  else
    .decodeBody r.bodyRaw

/-- The classes of errors the `catch` block of `makeRequest` can receive:
an `ApiError` thrown by `handleResponse`, an `AbortError` from the
timeout controller, or any other error (network failure). -/
inductive CaughtKind where
  | apiError (status : Nat)
  | abortError
  | otherError
deriving DecidableEq, Repr

/-- `ApiService.shouldRetry` (src lines 565-570): an `ApiError` is
retriable when its status is ≥ 500, everything else is retriable. -/
def shouldRetry : CaughtKind → Bool
  | .apiError status => decide (500 ≤ status)
  | .abortError => true
  | .otherError => true

/-- The outcome of one `fetch` attempt, supplied by an oracle indexed by
attempt number: the promise resolves with a `Response`, rejects with an
`AbortError` (deadline exceeded), or rejects with another error carrying
a message (network failure). -/
inductive AttemptOutcome where
  | resolved (r : Response)
  | aborted
  | failed (message : String)
deriving Repr

/-- The typed faults `makeRequest` can raise to its caller. -/
inductive ThrownError where
  | apiError (message : String) (status : Nat) (errorData : ErrorResponse)
  | validationError (validationErrors : List (String × String))
  | networkError (message : String)
deriving DecidableEq, Repr

/-- A successful `makeRequest` value: `null` or a decoded body. -/
inductive RespValue where
  | nullValue
  | decoded (raw : String)
deriving DecidableEq, Repr

/-- How a `makeRequest` call ends: the promise resolves with a value or
rejects with a typed fault. -/
inductive MRResult where
  | ok (v : RespValue)
  | error (e : ThrownError)
deriving DecidableEq, Repr

/-- The observable result of a `makeRequest` call: the value or fault,
the number of fetch attempts performed, and the list of delays (ms)
awaited between attempts. -/
structure MakeResult where
  result : MRResult
  attempts : Nat
  delays : List Nat
deriving DecidableEq, Repr

/-- `ApiService.makeRequest` (src lines 524-563), recursing exactly as the
source does on the `retries` counter. A resolved response goes through
`handleResponse`; a thrown `ApiError` is re-raised immediately (as
`ValidationError` when its status is 422), an `AbortError` is re-raised as
`NetworkError("Request timeout")`, and only the remaining errors reach the
`retries > 0 && shouldRetry(error)` check, which awaits `RETRY_DELAY` and
recurses with `retries - 1`; otherwise a `NetworkError` is raised. -/
def makeRequestAux (oracle : Nat → AttemptOutcome) : Nat → Nat → MakeResult
  | idx, retries =>
    match oracle idx with
    | .resolved r =>
        match handleResponse r with
        | .nullValue => ⟨.ok .nullValue, 1, []⟩
        | .decodeBody b => ⟨.ok (.decoded b), 1, []⟩
        | .apiFault msg status errorData =>
            if status == 422 then
              ⟨.error (.validationError (errorData.validationErrors.getD [])), 1, []⟩
            else
              ⟨.error (.apiError msg status errorData), 1, []⟩
    | .aborted => ⟨.error (.networkError "Request timeout"), 1, []⟩
    | .failed msg =>
        match retries with
        | r + 1 =>
            if shouldRetry .otherError then
              let sub := makeRequestAux oracle (idx + 1) r
              ⟨sub.result, sub.attempts + 1, RETRY_DELAY :: sub.delays⟩
            else ⟨.error (.networkError msg), 1, []⟩
        | 0 => ⟨.error (.networkError msg), 1, []⟩

/-- A `makeRequest` call with the default `retries = this.retryAttempts`. -/
def makeRequest (oracle : Nat → AttemptOutcome) : MakeResult :=
  makeRequestAux oracle 0 RETRY_ATTEMPTS

/-! ## C2, C3, C9 -/

/-- A response every attempt resolves to: HTTP 503, unparsable body. -/
def resp503 : Response :=
  { status := 503, contentLength := none, bodyRaw := ""
    errorJson := none, statusText := "Service Unavailable" }

/-- An oracle whose every attempt resolves with the 503 response. -/
def oracle503 : Nat → AttemptOutcome := fun _ => .resolved resp503

/-- An oracle whose every attempt rejects with `AbortError` (timeout). -/
def oracleAbort : Nat → AttemptOutcome := fun _ => .aborted

/-- An oracle resolving a 422 response carrying field errors. -/
def oracle422 : Nat → AttemptOutcome := fun _ =>
  .resolved
    { status := 422, contentLength := none, bodyRaw := ""
      errorJson := some
        { message := some "Validation failed", userMessage := none
          validationErrors := some [("email", "is invalid")] }
      statusText := "Unprocessable Entity" }

/-- C2 (failing evaluation): the code's own `shouldRetry` marks a 503
`ApiError` retriable, yet `makeRequest` re-raises every `ApiError` before
the retry check is reached, so the 503 surfaces after a single attempt
with no delay; an `AbortError` timeout (a network-class fault with no
response) is likewise re-raised without retry. The 422-to-`ValidationError`
part of the policy does hold. -/
theorem makeRequest_never_retries_5xx :
    shouldRetry (.apiError 503) = true
      ∧ makeRequest oracle503
          = ⟨.error (.apiError "Service Unavailable" 503
              ⟨some "Service Unavailable", none, none⟩), 1, []⟩
      ∧ makeRequest oracleAbort = ⟨.error (.networkError "Request timeout"), 1, []⟩
      ∧ makeRequest oracle422
          = ⟨.error (.validationError [("email", "is invalid")]), 1, []⟩ := by
  refine ⟨rfl, ?_, ?_, ?_⟩ <;> rfl

/-- An oracle failing with a network error on attempts 0, 1, 2 and
resolving an ok 200 response on attempt 3. -/
def oracleNet3 : Nat → AttemptOutcome := fun n =>
  if n < 3 then .failed "network down"
  else .resolved
    { status := 200, contentLength := none, bodyRaw := "payload"
      errorJson := none, statusText := "OK" }

/-- C3 (counterexample): a request failing with a retriable network fault
on each of its first three attempts is *not* surfaced after 3 attempts —
`makeRequest` performs a 4th attempt (initial try plus `RETRY_ATTEMPTS = 3`
retries) and succeeds when that 4th attempt succeeds, refuting the
exactly-3-attempts claim at this input. -/
theorem makeRequest_budget_counterexample :
    (makeRequest oracleNet3).attempts = 4
      ∧ (makeRequest oracleNet3).result = .ok (.decoded "payload")
      ∧ (makeRequest oracleNet3).delays = [1000, 1000, 1000] := by
  refine ⟨?_, ?_, ?_⟩ <;> rfl

private lemma makeRequestAux_failed_succ (oracle : Nat → AttemptOutcome)
    (idx r : Nat) (msg : String) (h : oracle idx = .failed msg) :
    makeRequestAux oracle idx (r + 1)
      = ⟨(makeRequestAux oracle (idx + 1) r).result,
         (makeRequestAux oracle (idx + 1) r).attempts + 1,
         RETRY_DELAY :: (makeRequestAux oracle (idx + 1) r).delays⟩ := by
  rw [makeRequestAux, h]
  rfl

private lemma makeRequestAux_failed_zero (oracle : Nat → AttemptOutcome)
    (idx : Nat) (msg : String) (h : oracle idx = .failed msg) :
    makeRequestAux oracle idx 0 = ⟨.error (.networkError msg), 1, []⟩ := by
  rw [makeRequestAux, h]

private lemma makeRequestAux_aborted (oracle : Nat → AttemptOutcome)
    (idx retries : Nat) (h : oracle idx = .aborted) :
    makeRequestAux oracle idx retries
      = ⟨.error (.networkError "Request timeout"), 1, []⟩ := by
  rw [makeRequestAux, h]

private lemma makeRequestAux_resolved (oracle : Nat → AttemptOutcome)
    (idx retries : Nat) (r : Response) (h : oracle idx = .resolved r) :
    makeRequestAux oracle idx retries
      = match handleResponse r with
        | .nullValue => ⟨.ok .nullValue, 1, []⟩
        | .decodeBody b => ⟨.ok (.decoded b), 1, []⟩
        | .apiFault msg status errorData =>
            if status == 422 then
              ⟨.error (.validationError (errorData.validationErrors.getD [])), 1, []⟩
            else
              ⟨.error (.apiError msg status errorData), 1, []⟩ := by
  rw [makeRequestAux, h]

private lemma makeRequestAux_resolved_decode (oracle : Nat → AttemptOutcome)
    (idx retries : Nat) (r : Response) (b : String)
    (h : oracle idx = .resolved r) (hr : handleResponse r = .decodeBody b) :
    makeRequestAux oracle idx retries = ⟨.ok (.decoded b), 1, []⟩ := by
  rw [makeRequestAux_resolved oracle idx retries r h, hr]

private lemma makeRequestAux_resolved_null (oracle : Nat → AttemptOutcome)
    (idx retries : Nat) (r : Response)
    (h : oracle idx = .resolved r) (hr : handleResponse r = .nullValue) :
    makeRequestAux oracle idx retries = ⟨.ok .nullValue, 1, []⟩ := by
  rw [makeRequestAux_resolved oracle idx retries r h, hr]

private lemma makeRequestAux_resolved_fault (oracle : Nat → AttemptOutcome)
    (idx retries : Nat) (r : Response) (msg : String) (status : Nat)
    (errorData : ErrorResponse)
    (h : oracle idx = .resolved r)
    (hr : handleResponse r = .apiFault msg status errorData) :
    makeRequestAux oracle idx retries
      = if status == 422 then
          ⟨.error (.validationError (errorData.validationErrors.getD [])), 1, []⟩
        else
          ⟨.error (.apiError msg status errorData), 1, []⟩ := by
  rw [makeRequestAux_resolved oracle idx retries r h, hr]

private lemma makeRequestAux_base_shape (oracle : Nat → AttemptOutcome) (idx : Nat) :
    (makeRequestAux oracle idx 0).attempts = 1
      ∧ (makeRequestAux oracle idx 0).delays = [] := by
  cases h : oracle idx with
  | resolved r =>
      cases hr : handleResponse r with
      | nullValue =>
          rw [makeRequestAux_resolved_null oracle idx 0 r h hr]
          exact ⟨rfl, rfl⟩
      | decodeBody b =>
          rw [makeRequestAux_resolved_decode oracle idx 0 r b h hr]
          exact ⟨rfl, rfl⟩
      | apiFault msg status errorData =>
          rw [makeRequestAux_resolved_fault oracle idx 0 r msg status errorData h hr]
          constructor <;> (split <;> rfl)
  | aborted =>
      rw [makeRequestAux_aborted oracle idx 0 h]
      exact ⟨rfl, rfl⟩
  | failed msg =>
      rw [makeRequestAux_failed_zero oracle idx msg h]
      exact ⟨rfl, rfl⟩

/-- C3 (amended): when the first three attempts fail with retriable
network-class faults, `makeRequest` always performs exactly 4 attempts
(1 initial + 3 retries), waiting the fixed 1000 ms delay before each
retry; the call succeeds if the 4th attempt decodes, and a network fault
is surfaced only when the 4th attempt also fails. -/
theorem makeRequest_budget_is_four_attempts (oracle : Nat → AttemptOutcome)
    (m0 m1 m2 : String)
    (h0 : oracle 0 = .failed m0) (h1 : oracle 1 = .failed m1)
    (h2 : oracle 2 = .failed m2) :
    (makeRequest oracle).attempts = 4
      ∧ (makeRequest oracle).delays = [RETRY_DELAY, RETRY_DELAY, RETRY_DELAY]
      ∧ (∀ r b, oracle 3 = .resolved r → handleResponse r = .decodeBody b →
          (makeRequest oracle).result = .ok (.decoded b))
      ∧ (∀ m3, oracle 3 = .failed m3 →
          (makeRequest oracle).result = .error (.networkError m3)) := by
  have e0 : makeRequestAux oracle 0 3
      = ⟨(makeRequestAux oracle 1 2).result, (makeRequestAux oracle 1 2).attempts + 1,
         RETRY_DELAY :: (makeRequestAux oracle 1 2).delays⟩ :=
    makeRequestAux_failed_succ oracle 0 2 m0 h0
  have e1 : makeRequestAux oracle 1 2
      = ⟨(makeRequestAux oracle 2 1).result, (makeRequestAux oracle 2 1).attempts + 1,
         RETRY_DELAY :: (makeRequestAux oracle 2 1).delays⟩ :=
    makeRequestAux_failed_succ oracle 1 1 m1 h1
  have e2 : makeRequestAux oracle 2 1
      = ⟨(makeRequestAux oracle 3 0).result, (makeRequestAux oracle 3 0).attempts + 1,
         RETRY_DELAY :: (makeRequestAux oracle 3 0).delays⟩ :=
    makeRequestAux_failed_succ oracle 2 0 m2 h2
  have hbase := makeRequestAux_base_shape oracle 3
  refine ⟨?_, ?_, ?_, ?_⟩
  · show (makeRequestAux oracle 0 3).attempts = 4
    simp [e0, e1, e2, hbase.1]
  · show (makeRequestAux oracle 0 3).delays = [RETRY_DELAY, RETRY_DELAY, RETRY_DELAY]
    simp [e0, e1, e2, hbase.2]
  · intro r b h3 hdec
    show (makeRequestAux oracle 0 3).result = .ok (.decoded b)
    simp only [e0, e1, e2]
    exact congrArg MakeResult.result (makeRequestAux_resolved_decode oracle 3 0 r b h3 hdec)
  · intro m3 h3
    show (makeRequestAux oracle 0 3).result = .error (.networkError m3)
    simp only [e0, e1, e2]
    exact congrArg MakeResult.result (makeRequestAux_failed_zero oracle 3 m3 h3)

/-- Witness for the amended C3 at the concrete oracle that fails three
times and then succeeds. -/
theorem makeRequest_budget_is_four_attempts_witness :
    (makeRequest oracleNet3).attempts = 4
      ∧ (makeRequest oracleNet3).delays = [RETRY_DELAY, RETRY_DELAY, RETRY_DELAY]
      ∧ (∀ r b, oracleNet3 3 = .resolved r → handleResponse r = .decodeBody b →
          (makeRequest oracleNet3).result = .ok (.decoded b))
      ∧ (∀ m3, oracleNet3 3 = .failed m3 →
          (makeRequest oracleNet3).result = .error (.networkError m3)) :=
  makeRequest_budget_is_four_attempts oracleNet3
    "network down" "network down" "network down" rfl rfl rfl

/-- C9 (counterexample): a 200 response with a zero-length body but no
`Content-Length` header is *not* mapped to `null` — `handleResponse`
only checks `status === 204 || headers.get('Content-Length') === '0'`,
so the empty body is handed to the JSON decoder. -/
theorem handleResponse_emptyBody_counterexample :
    (Response.mk 200 none "" none "OK").bodyRaw.length = 0
      ∧ handleResponse (Response.mk 200 none "" none "OK") = .decodeBody "" := by
  exact ⟨rfl, rfl⟩

/-- C9 (amended): for an ok response, a 204 status or a `Content-Length`
header equal to `'0'` yields `null` with no decode attempt, and every
other 2xx response (including a zero-length body that does not advertise
`Content-Length: 0`) is passed to the body decoder. -/
theorem handleResponse_null_or_decode (r : Response) (hok : responseOk r = true) :
    ((r.status == 204 || r.contentLength == some "0") = true →
        handleResponse r = .nullValue)
      ∧ ((r.status == 204 || r.contentLength == some "0") = false →
        handleResponse r = .decodeBody r.bodyRaw) := by
  constructor
  · intro hcond
    simp [handleResponse, hok, hcond]
  · intro hcond
    simp [handleResponse, hok, hcond]

/-- Witness for the amended C9 at a concrete 204 response and a concrete
200 response with a nonempty body. -/
theorem handleResponse_null_or_decode_witness :
    responseOk (Response.mk 204 none "" none "No Content") = true
      ∧ handleResponse (Response.mk 204 none "" none "No Content") = .nullValue
      ∧ handleResponse (Response.mk 200 none "payload" none "OK") = .decodeBody "payload" :=
  ⟨rfl, (handleResponse_null_or_decode (Response.mk 204 none "" none "No Content") rfl).1 rfl,
    (handleResponse_null_or_decode (Response.mk 200 none "payload" none "OK") rfl).2 rfl⟩

/-! ## Credential storage (src/services/config.ts, ApiService, AuthContext) -/

/-- `API_CONFIG.STORAGE_KEYS.TOKEN` (src/services/config.ts line 117). -/
def STORAGE_KEY_TOKEN : String := "chitchat_token"

/-- `API_CONFIG.STORAGE_KEYS.USER` (src/services/config.ts line 118). -/
def STORAGE_KEY_USER : String := "chitchat_user"

/-- `localStorage` as an association list with most-recent-write-first
lookup. -/
abbrev Storage := List (String × String)

/-- `localStorage.getItem(key)`. -/
def getItem (s : Storage) (key : String) : Option String :=
  (s.find? fun p => p.1 == key).map fun p => p.2

/-- `localStorage.setItem(key, value)`. -/
def setItem (s : Storage) (key value : String) : Storage :=
  (key, value) :: s

/-- `ApiService.getToken` (src lines 495-502): reads the token fresh from
storage under `STORAGE_KEYS.TOKEN` on every call. -/
def getToken (s : Storage) : Option String :=
  getItem s STORAGE_KEY_TOKEN

/-- JavaScript truthiness of an optional string: `null`/`undefined` and
the empty string are falsy. -/
def jsTruthy : Option String → Bool
  | some s => !(s == "")
  | none => false

/-- `ApiService.getHeaders` (src lines 481-493): JSON content headers; the
`if (token)` guard attaches `Authorization: Bearer <token>` exactly when
`getToken` finds a truthy (non-null, nonempty) token. -/
def getHeaders (s : Storage) : List (String × String) :=
  match getToken s with
  | some t =>
      if t == "" then
        [("Content-Type", "application/json"), ("Accept", "application/json")]
      else
        [("Content-Type", "application/json"), ("Accept", "application/json"),
         ("Authorization", "Bearer " ++ t)]
  | none =>
      [("Content-Type", "application/json"), ("Accept", "application/json")]

/-- The storage writes of `ApiService.login` / `register` (src lines
586-588 and 599-601): the returned token under `STORAGE_KEYS.TOKEN`, the
mapped user JSON under `STORAGE_KEYS.USER`. -/
def loginPersist (s : Storage) (token userJson : String) : Storage :=
  setItem (setItem s STORAGE_KEY_TOKEN token) STORAGE_KEY_USER userJson

/-- The literal key `checkAuthStatus` reads on startup:
`localStorage.getItem('token')` in `AuthContext`. -/
def checkAuthStatusKey : String := "token"

/-- The stored token seen by `AuthProvider.checkAuthStatus` on startup. -/
def checkAuthStatusStoredToken (s : Storage) : Option String :=
  getItem s checkAuthStatusKey

/-! ## C7, C8 -/

/-- C7 (failing evaluation): after a login persisted token `tok123`, the
startup restore reads the literal key `token` while login wrote
`chitchat_token`, so `checkAuthStatus` finds no token at all: the session
is never restored even though the token sits in storage under the config
key. -/
theorem checkAuthStatus_misses_persisted_token :
    checkAuthStatusStoredToken (loginPersist [] "tok123" "{ }") = none
      ∧ getToken (loginPersist [] "tok123" "{ }") = some "tok123"
      ∧ checkAuthStatusKey ≠ STORAGE_KEY_TOKEN := by
  refine ⟨rfl, rfl, ?_⟩
  decide

private lemma getToken_loginPersist (s : Storage) (token userJson : String) :
    getToken (loginPersist s token userJson) = some token := rfl

/-- C8: a successful login persists the returned token and — as long as
that token is truthy (nonempty, which a real bearer token is) — the
header builder attaches `Authorization: Bearer <token>` with exactly that
token on every subsequent call; moreover the headers are a function of
the token currently in storage alone — any storage whose current token is
`token` (for instance after a rotation) produces the same
`Authorization` header. -/
theorem login_token_flows_to_auth_header (s s2 : Storage) (token userJson : String)
    (htok : token ≠ "") (hs2 : getToken s2 = some token) :
    getHeaders (loginPersist s token userJson)
        = [("Content-Type", "application/json"), ("Accept", "application/json"),
           ("Authorization", "Bearer " ++ token)]
      ∧ getHeaders s2
        = [("Content-Type", "application/json"), ("Accept", "application/json"),
           ("Authorization", "Bearer " ++ token)] := by
  have hbeq : (token == "") = false := by
    cases hb : token == "" with
    | true => exact absurd (by simpa using hb) htok
    | false => rfl
  constructor
  · unfold getHeaders
    rw [getToken_loginPersist s token userJson]
    simp [hbeq]
  · unfold getHeaders
    rw [hs2]
    simp [hbeq]

/-- Witness for C8: a concrete login into empty storage with a nonempty
token, and a concrete rotated storage holding the same token. -/
theorem login_token_flows_to_auth_header_witness :
    ("tok123" : String) ≠ ""
      ∧ getToken [(STORAGE_KEY_TOKEN, "tok123")] = some "tok123"
      ∧ (getHeaders (loginPersist [] "tok123" "{ }")
          = [("Content-Type", "application/json"), ("Accept", "application/json"),
             ("Authorization", "Bearer " ++ "tok123")]
        ∧ getHeaders [(STORAGE_KEY_TOKEN, "tok123")]
          = [("Content-Type", "application/json"), ("Accept", "application/json"),
             ("Authorization", "Bearer " ++ "tok123")]) :=
  ⟨by decide, rfl,
    login_token_flows_to_auth_header [] [(STORAGE_KEY_TOKEN, "tok123")] "tok123" "{ }"
      (by decide) rfl⟩

/-! ## Error classifier (ErrorHandler in src/services/errorHandler.ts) -/

/-- Notification severity (`ErrorNotification.type`). -/
inductive NotifType where
  | error
  | warning
  | info
deriving DecidableEq, Repr

/-- The action closures stored in notifications, deeply embedded: redirect
to `/auth`, reload the page, or the two shapes of `Retry` closure — one
that falls back to `window.location.reload()` when no callback is
registered under the captured key (the 500 handler) and one that does
nothing in that case (the 502/503/504 and network handlers). -/
inductive NotifAction where
  | redirectToAuth
  | reloadPage
  | retryWithReloadFallback (contextKey : String)
  | retryNoFallback (contextKey : String)
deriving DecidableEq, Repr

/-- `ErrorNotification` (errorHandler src lines 14-23): severity, title,
message, optional auto-dismiss duration (ms) and labelled actions. -/
structure ErrorNotification where
  ntype : NotifType
  title : String
  message : String
  duration : Option Nat
  actions : List (String × NotifAction)
deriving DecidableEq, Repr

/-- The retry-callback registry (`ErrorHandler.retryCallbacks`), reduced
to the set of context keys currently registered. -/
abbrev RetryRegistry := List String

/-- What clicking a notification action does. -/
inductive ClickEffect where
  | invokeRetry (contextKey : String)
  | reload
  | redirect (path : String)
  | noEffect
deriving DecidableEq, Repr

/-- Evaluation of a stored action closure against the registry at click
time: the 500-handler `Retry` looks up the key and falls back to a reload,
the unavailable-handler `Retry` looks up the key and otherwise does
nothing. -/
def runAction : NotifAction → RetryRegistry → ClickEffect
  | .redirectToAuth, _ => .redirect "/auth"
  | .reloadPage, _ => .reload
  | .retryWithReloadFallback key, reg =>
      if reg.contains key then .invokeRetry key else .reload
  | .retryNoFallback key, reg =>
      if reg.contains key then .invokeRetry key else .noEffect

/-- `field: message` pairs joined with `, ` (the `Object.entries(...).map
.join` idiom of the validation handlers). -/
def joinValidation (entries : List (String × String)) : String :=
  String.intercalate ", " (entries.map fun p => p.1 ++ ": " ++ p.2)

/-- `handleBadRequestError` (errorHandler src lines 106-128). -/
def handleBadRequestError (d : ErrorResponse) : ErrorNotification :=
  let baseMessage := jsOr d.userMessage (jsOr d.message "Invalid request")
  match d.validationErrors with
  | some ve =>
      { ntype := .error, title := "Validation Error"
        message := baseMessage ++ ". " ++ joinValidation ve
        duration := some 8000, actions := [] }
  | none =>
      { ntype := .error, title := "Invalid Request"
        message := baseMessage, duration := some 5000, actions := [] }

/-- `handleUnauthorizedError` (src lines 130-148). -/
def handleUnauthorizedError (d : ErrorResponse) : ErrorNotification :=
  { ntype := .error, title := "Authentication Required"
    message := jsOr d.userMessage "You need to log in to access this resource"
    duration := some 5000, actions := [("Log In", .redirectToAuth)] }

/-- `handleForbiddenError` (src lines 150-159). -/
def handleForbiddenError (d : ErrorResponse) : ErrorNotification :=
  { ntype := .error, title := "Access Denied"
    message := jsOr d.userMessage "You don\u0027t have permission to access this resource"
    duration := some 5000, actions := [] }

/-- `handleNotFoundError` (src lines 161-170). -/
def handleNotFoundError (d : ErrorResponse) : ErrorNotification :=
  { ntype := .error, title := "Not Found"
    message := jsOr d.userMessage "The requested resource was not found"
    duration := some 5000, actions := [] }

/-- `handleConflictError` (src lines 172-189). -/
def handleConflictError (d : ErrorResponse) : ErrorNotification :=
  { ntype := .error, title := "Conflict"
    message := jsOr d.userMessage "A conflict occurred with the current state of the resource"
    duration := some 5000, actions := [("Refresh", .reloadPage)] }

/-- `handlePayloadTooLargeError` (src lines 191-200). -/
def handlePayloadTooLargeError (d : ErrorResponse) : ErrorNotification :=
  { ntype := .error, title := "File Too Large"
    message := jsOr d.userMessage "The uploaded file is too large"
    duration := some 5000, actions := [] }

/-- `handleRateLimitError` (src lines 202-211). -/
def handleRateLimitError (d : ErrorResponse) : ErrorNotification :=
  { ntype := .warning, title := "Rate Limit Exceeded"
    message := jsOr d.userMessage "Too many requests. Please try again later"
    duration := some 5000, actions := [] }

/-- `handleValidationError` (src lines 293-304), reached from the 422
branch with `errorData.validationErrors || an empty map`. -/
def handleValidationErrorNotif (validationErrors : List (String × String)) : ErrorNotification :=
  { ntype := .error, title := "Validation Error"
    message := "Please fix the following errors: " ++ joinValidation validationErrors
    duration := some 8000, actions := [] }

/-- `handleInternalServerError` (src lines 213-236): 5000 ms dismiss and a
`Retry` action that invokes the callback registered under
`context || default` and falls back to a page reload. -/
def handleInternalServerError (d : ErrorResponse) (context : Option String) : ErrorNotification :=
  { ntype := .error, title := "Server Error"
    message := jsOr d.userMessage "A server error occurred. Please try again later"
    duration := some 5000
    actions := [("Retry", .retryWithReloadFallback (jsOr context "default"))] }

/-- `handleServerUnavailableError` (src lines 238-259): 8000 ms dismiss and
a `Retry` action that invokes the registered callback with no fallback. -/
def handleServerUnavailableError (d : ErrorResponse) (context : Option String) : ErrorNotification :=
  { ntype := .error, title := "Server Unavailable"
    message := jsOr d.userMessage "The server is temporarily unavailable. Please try again later"
    duration := some 8000
    actions := [("Retry", .retryNoFallback (jsOr context "default"))] }

/-- `handleGenericApiError` (src lines 261-270). -/
def handleGenericApiError (apiMessage : String) : ErrorNotification :=
  { ntype := .error, title := "API Error"
    message := jsOr (some apiMessage) "An unexpected error occurred"
    duration := some 5000, actions := [] }

/-- `ErrorHandler.handleApiError` (src lines 74-104): the status-code
`switch` dispatching an `ApiError` (with message `apiMessage` and parsed
`errorData`) to the specific handlers. -/
def handleApiError (status : Nat) (d : ErrorResponse) (context : Option String)
    (apiMessage : String) : ErrorNotification :=
  match status with
  | 400 => handleBadRequestError d
  | 401 => handleUnauthorizedError d
  | 403 => handleForbiddenError d
  | 404 => handleNotFoundError d
  | 409 => handleConflictError d
  | 413 => handlePayloadTooLargeError d
  | 422 => handleValidationErrorNotif (d.validationErrors.getD [])
  | 429 => handleRateLimitError d
  | 500 => handleInternalServerError d context
  | 502 => handleServerUnavailableError d context
  | 503 => handleServerUnavailableError d context
  | 504 => handleServerUnavailableError d context
  | _ => handleGenericApiError apiMessage

/-! ## C6 -/

/-- C6: a 500 fault classifies to an error notification with 5000 ms
dismiss whose `Retry` action invokes the callback registered for the
context and falls back to a page reload when none is registered, while
502, 503 and 504 classify identically to an error notification with
8000 ms dismiss whose `Retry` action invokes the registered callback with
no fallback — matching the spec's dispatch rows for these statuses. -/
theorem serverFault_notification_dispatch (d : ErrorResponse) (ctx : Option String)
    (reg : RetryRegistry) (apiMessage : String) :
    (handleApiError 500 d ctx apiMessage).ntype = .error
      ∧ (handleApiError 500 d ctx apiMessage).duration = some 5000
      ∧ (handleApiError 500 d ctx apiMessage).actions
          = [("Retry", .retryWithReloadFallback (jsOr ctx "default"))]
      ∧ runAction (.retryWithReloadFallback (jsOr ctx "default")) reg
          = (if reg.contains (jsOr ctx "default")
              then .invokeRetry (jsOr ctx "default") else .reload)
      ∧ handleApiError 502 d ctx apiMessage = handleApiError 503 d ctx apiMessage
      ∧ handleApiError 504 d ctx apiMessage = handleApiError 503 d ctx apiMessage
      ∧ (handleApiError 503 d ctx apiMessage).ntype = .error
      ∧ (handleApiError 503 d ctx apiMessage).duration = some 8000
      ∧ (handleApiError 503 d ctx apiMessage).actions
          = [("Retry", .retryNoFallback (jsOr ctx "default"))]
      ∧ runAction (.retryNoFallback (jsOr ctx "default")) reg
          = (if reg.contains (jsOr ctx "default")
              then .invokeRetry (jsOr ctx "default") else .noEffect) :=
  ⟨rfl, rfl, rfl, rfl, rfl, rfl, rfl, rfl, rfl, rfl⟩

/-! ## Realtime channel manager (src/contexts/ChatContext.tsx, lines 40-63 and 82-86) -/

/-- The user's private inbox destination subscribed in `onConnect`. -/
def inboxDestination (userId : String) : String :=
  "/user/" ++ userId ++ "/queue/messages"

/-- The per-room destination subscribed by `subscribeToRoom`. -/
def roomDestination (roomId : String) : String :=
  "/topic/room/" ++ roomId

/-- The STOMP `Client` built by `connectWebSocket`: its `onConnect`
closure captures the `chats` value of the render in which the client was
created, and that captured list — not the later state — is what
`chats.forEach(chat => subscribeToRoom(chat.id))` iterates on every
(re)connect of this client. -/
structure StompClientModel where
  subscriberId : String
  capturedChats : List Chat
deriving DecidableEq, Repr

/-- `connectWebSocket` (src lines 40-63): a no-op (`none`) without a
truthy token (`!token` is JS-falsy for null and the empty string),
without an authenticated session, or when the current client is already
connected; otherwise it creates a client whose callbacks close over the
current `chats`. -/
def connectWebSocket (token : Option String) (isAuthenticated : Bool)
    (alreadyConnected : Bool) (userId : String) (chats : List Chat) :
    Option StompClientModel :=
  if !jsTruthy token || !isAuthenticated || alreadyConnected then none
  else some { subscriberId := userId, capturedChats := chats }

/-- The destinations subscribed when a client's `onConnect` fires: the
private inbox plus one room destination per chat in the captured list. -/
def onConnectDestinations (client : StompClientModel) : List String :=
  inboxDestination client.subscriberId
    :: client.capturedChats.map fun c => roomDestination c.id

/-- Modelled from the spec's words for comparison (the claim's expected
destination set): the inbox plus one destination per room currently known
to the state synchronizer at (re)connect time. -/
def specResubscribedDestinations (userId : String) (currentChats : List Chat) : List String :=
  inboxDestination userId :: currentChats.map fun c => roomDestination c.id

/-! ## C5 -/

/-- C5 (failing evaluation): `connectWebSocket` runs while `chats` is
still empty (it is invoked from the `isAuthenticated` effect before
`loadChats` resolves), so the client's `onConnect` closure captures the
empty room list; when room `r1` is known at a later (re)connect, the
subscribed destinations are just the inbox — not the inbox plus `r1`
required by the claim, because no current-room set is consulted at
connect time. -/
theorem reconnect_subscribes_stale_room_set :
    connectWebSocket (some "tok") true false "u1" []
        = some { subscriberId := "u1", capturedChats := [] }
      ∧ onConnectDestinations { subscriberId := "u1", capturedChats := [] }
          = ["/user/u1/queue/messages"]
      ∧ onConnectDestinations { subscriberId := "u1", capturedChats := [] }
          ≠ specResubscribedDestinations "u1" [{ id := "r1", name := "Room One", messages := [] }] := by
  refine ⟨rfl, rfl, ?_⟩
  decide

end ChitChat
